import Mathlib

/-!
Verification development for the ruddit repository.

The development shallowly embeds the parts of the code that the claims
are about:

* the response normalizer (fence stripping) of `src/ai/gemini.rs`
  (lines 142-157 and 373-388), modelled on `List Char` (Rust `&str`
  values are modelled as their character sequences);
* the two structured-extraction retry loops `ask_gemini` and
  `gemini_generate_leads` of `src/ai/gemini.rs`, modelled as pure
  functions over an environment record that fixes the outcome of every
  external call (database reads, config reads, provider calls,
  `serde_json` parsing, and the excel export's file I/O);
* the record store of `src/database/adding.rs`: `append_results`
  (INSERT OR IGNORE with the UNIQUE constraint on `url`),
  `append_comments` (INSERT OR REPLACE keyed on the TEXT PRIMARY KEY
  `id`), `get_db_results` and `get_post_comments`
  (SELECT ... ORDER BY timestamp DESC).

Machine integers (`i64`, `i32`) are modelled as `Int`; none of the
claims involve overflow.  `serde_json::from_str` is an external library
and is modelled as an opaque parse function carried by the environment;
concrete instantiations use a small executable parser for decimal
integer literals (a fragment of JSON).
-/

namespace Ruddit

/-- Boolean prefix test on character lists, modelling Rust `str::starts_with`. -/
def leadsWith : List Char → List Char → Bool
  | [], _ => true
  | _ :: _, [] => false
  | p :: ps, c :: cs => p == c && leadsWith ps cs

/-- Rust `str::trim`: remove whitespace from both ends of the text. -/
def rsTrim (s : List Char) : List Char :=
  ((s.dropWhile Char.isWhitespace).reverse.dropWhile Char.isWhitespace).reverse

/-- Fuel-indexed worker for `stripLeading`.  Each successful step removes
`pat.length ≥ 1` characters, so fuel `s.length + 1` always suffices; the
fuel only makes the recursion structural. -/
def stripLeadingAux : Nat → List Char → List Char → List Char
  | 0, _, s => s
  | fuel + 1, pat, s =>
    if !pat.isEmpty && leadsWith pat s then stripLeadingAux fuel pat (s.drop pat.length)
    else s

/-- Rust `str::trim_start_matches pat`: repeatedly remove the prefix `pat`
from the front of the text while it is present. -/
def stripLeading (pat s : List Char) : List Char :=
  stripLeadingAux (s.length + 1) pat s

/-- Rust `str::trim_end_matches pat`: repeatedly remove the suffix `pat`
from the end of the text while it is present (a suffix of `s` is a prefix
of `s.reverse`). -/
def stripTrailing (pat s : List Char) : List Char :=
  (stripLeading pat.reverse s.reverse).reverse

/-- The plain markdown fence marker. -/
def fence : List Char := "```".data

/-- The language-tagged markdown fence opener. -/
def fenceJson : List Char := "```json".data

/-- The response normalizer of `ask_gemini` / `gemini_generate_leads`
(`src/ai/gemini.rs` lines 142-157 and 373-388): trim the raw response,
then, when the trimmed text opens with a fence (with or without the
`json` language tag), strip the repeated fence opener, strip repeated
trailing fence markers, and trim the result again. -/
def stripFences (text : List Char) : List Char :=
  let trimmed := rsTrim text
  if leadsWith fenceJson trimmed then
    rsTrim (stripTrailing fence (stripLeading fenceJson trimmed))
  else if leadsWith fence trimmed then
    rsTrim (stripTrailing fence (stripLeading fence trimmed))
  else trimmed

/-- `stripFences` lifted to `String`. -/
def stripFencesStr (s : String) : String :=
  String.mk (stripFences s.data)

/-- Remove the final `pat.length` characters when the text ends with `pat`. -/
def dropOneTrailing (pat s : List Char) : List Char :=
  if leadsWith pat.reverse s.reverse then (s.reverse.drop pat.length).reverse else s

/-- Modelled from the claim text of C2 (and spec section 4.2): if the
trimmed text starts with the tagged fence opener, return it with that
prefix removed (once) and any trailing fence markers removed; else the
same for the untagged opener; otherwise return the trimmed text
unchanged.  Kept separate from `stripFences` so the two can be compared;
the code additionally strips the opener repeatedly and re-trims
whitespace at the end, which this description omits. -/
def stripFencesClaimed (text : List Char) : List Char :=
  let trimmed := rsTrim text
  if leadsWith fenceJson trimmed then
    stripTrailing fence (trimmed.drop fenceJson.length)
  else if leadsWith fence trimmed then
    stripTrailing fence (trimmed.drop fence.length)
  else trimmed

lemma leadsWith_append_left (p q s : List Char) (h : leadsWith (p ++ q) s = true) :
    leadsWith p s = true := by
  induction p generalizing s with
  | nil => rfl
  | cons a p ih =>
    cases s with
    | nil => simp [leadsWith] at h
    | cons b s =>
      simp only [List.cons_append, leadsWith, Bool.and_eq_true] at h ⊢
      exact ⟨h.1, ih s h.2⟩

lemma fence_of_fenceJson (s : List Char) (h : leadsWith fenceJson s = true) :
    leadsWith fence s = true := by
  have hsplit : fenceJson = fence ++ ['j', 's', 'o', 'n'] := by decide
  exact leadsWith_append_left fence ['j', 's', 'o', 'n'] s (hsplit ▸ h)

/-- C2 counterexample: on the input `"```json```json 1 ``````"` the code's
normalizer removes the tagged opener twice and trims the result once more,
so it returns `"1"`, while the rule stated by the claim (remove the opener
prefix and the trailing fences from the trimmed text) returns
`"```json 1 "`. -/
theorem c2_normalizer_counterexample :
    stripFences ("```json```json 1 ``````".data) ≠
      stripFencesClaimed ("```json```json 1 ``````".data) := by
  decide

/-- C2 amended: the normalizer is a pure function of the raw text; if the
trimmed text starts with the tagged fence opener, it returns the trimmed
text with all leading copies of that opener removed, all trailing fence
markers removed, and the result whitespace-trimmed again; else the same
with the untagged opener; otherwise the trimmed text unchanged (first
matching rule wins, no nested-fence handling). -/
theorem c2_normalizer_amended (text : List Char) :
    (leadsWith fenceJson (rsTrim text) = true →
      stripFences text = rsTrim (stripTrailing fence (stripLeading fenceJson (rsTrim text)))) ∧
    (leadsWith fenceJson (rsTrim text) = false → leadsWith fence (rsTrim text) = true →
      stripFences text = rsTrim (stripTrailing fence (stripLeading fence (rsTrim text)))) ∧
    (leadsWith fence (rsTrim text) = false → stripFences text = rsTrim text) := by
  refine ⟨?_, ?_, ?_⟩
  · intro h
    simp only [stripFences, h, if_true]
  · intro hj hf
    simp only [stripFences, hj, hf, Bool.false_eq_true, if_false, if_true]
  · intro hf
    have hj : leadsWith fenceJson (rsTrim text) = false := by
      cases hcase : leadsWith fenceJson (rsTrim text) with
      | false => rfl
      | true => rw [fence_of_fenceJson (rsTrim text) hcase] at hf; cases hf
    simp only [stripFences, hj, hf, Bool.false_eq_true, if_false]

/-- Witness for C2 amended, at the fenced input `"```json 1```"`. -/
theorem c2_normalizer_amended_witness :
    stripFences ("```json 1```".data) =
      rsTrim (stripTrailing fence (stripLeading fenceJson (rsTrim ("```json 1```".data)))) :=
  (c2_normalizer_amended ("```json 1```".data)).1 (by decide)

/-- Post record, `PostDataWrapper` of `src/database/adding.rs` (lines 8-18);
`i64` is modelled as `Int`. -/
structure PostDataWrapper where
  id : Int
  timestamp : Int
  formatted_date : String
  title : String
  url : String
  relevance : String
  subreddit : String
  permalink : String
  deriving DecidableEq

/-- Comment record, `CommentDataWrapper` of `src/database/adding.rs`
(lines 21-32); `i64`/`i32` are modelled as `Int`. -/
structure CommentDataWrapper where
  id : String
  post_id : String
  body : String
  author : String
  timestamp : Int
  formatted_date : String
  score : Int
  permalink : String
  parent_id : String
  deriving DecidableEq

/-- State of the `reddit_posts` table: the stored rows plus the next
auto-assigned rowid (the `id INTEGER PRIMARY KEY` column is not part of
the INSERT column list, so SQLite assigns it). -/
structure PostsTable where
  rows : List PostDataWrapper
  nextRowId : Int
  deriving DecidableEq

/-- One INSERT OR IGNORE step of `append_results`
(`src/database/adding.rs` lines 98-114): the column list omits `id`, so
the only uniqueness constraint that can fire is `url UNIQUE`; a
conflicting row is ignored (no error, row kept as it was), otherwise the
row is appended with a fresh rowid. -/
def insertPost (t : PostsTable) (result : PostDataWrapper) : PostsTable :=
  if t.rows.any (fun row => row.url == result.url) then t
  else
    let newRow : PostDataWrapper :=
      { id := t.nextRowId, timestamp := result.timestamp,
        formatted_date := result.formatted_date, title := result.title,
        url := result.url, relevance := result.relevance,
        subreddit := result.subreddit, permalink := result.permalink }
    { rows := t.rows ++ [newRow], nextRowId := t.nextRowId + 1 }

/-- `DB::append_results` (`src/database/adding.rs` lines 94-120): insert
every given post with INSERT OR IGNORE, in order. -/
def append_results (t : PostsTable) (results : List PostDataWrapper) : PostsTable :=
  results.foldl insertPost t

/-- One INSERT OR REPLACE step of `append_comments`
(`src/database/adding.rs` lines 126-143): the `reddit_comments` table has
`id TEXT PRIMARY KEY`; a row with a conflicting `id` is deleted and the
new row inserted (no error). -/
def insertComment (rows : List CommentDataWrapper) (comment : CommentDataWrapper) :
    List CommentDataWrapper :=
  rows.filter (fun row => row.id != comment.id) ++ [comment]

/-- `DB::append_comments` (`src/database/adding.rs` lines 122-150). -/
def append_comments (rows : List CommentDataWrapper) (comments : List CommentDataWrapper) :
    List CommentDataWrapper :=
  comments.foldl insertComment rows

/-- `DB::get_db_results` (`src/database/adding.rs` lines 152-175):
`SELECT ... FROM reddit_posts ORDER BY timestamp DESC`.  SQLite does not
fix the relative order of rows with equal timestamps, so any stable
realization of the descending sort is a faithful model. -/
def get_db_results (t : PostsTable) : List PostDataWrapper :=
  t.rows.mergeSort (fun a b => decide (b.timestamp ≤ a.timestamp))

/-- `DB::get_post_comments` (`src/database/adding.rs` lines 177-202):
`SELECT ... FROM reddit_comments WHERE post_id = ?1 ORDER BY timestamp DESC`. -/
def get_post_comments (rows : List CommentDataWrapper) (post_id : String) :
    List CommentDataWrapper :=
  (rows.filter (fun c => c.post_id == post_id)).mergeSort
    (fun a b => decide (b.timestamp ≤ a.timestamp))

lemma insertPost_mem_url (t : PostsTable) (r : PostDataWrapper) :
    (insertPost t r).rows.any (fun row => row.url == r.url) = true := by
  by_cases h : t.rows.any (fun row => row.url == r.url) = true
  · simp [insertPost, h]
  · simp [insertPost, h]

lemma insertPost_idem (t : PostsTable) (r : PostDataWrapper) :
    insertPost (insertPost t r) r = insertPost t r := by
  have h := insertPost_mem_url t r
  conv_lhs => rw [insertPost]
  rw [if_pos h]

lemma filter_url_length_one (l : List PostDataWrapper) (u : String)
    (hnd : l.Pairwise (fun a b => a.url ≠ b.url)) (hex : ∃ x ∈ l, x.url = u) :
    (l.filter (fun row => row.url == u)).length = 1 := by
  induction l with
  | nil => obtain ⟨x, hx, _⟩ := hex; cases hx
  | cons a l ih =>
    rcases List.pairwise_cons.mp hnd with ⟨ha, hl⟩
    by_cases hau : a.url = u
    · have hfl : l.filter (fun row => row.url == u) = [] := by
        rw [List.filter_eq_nil_iff]
        intro b hb
        simp only [beq_iff_eq]
        intro hbu
        exact ha b hb (by rw [hau, hbu])
      simp [List.filter_cons, hau, hfl]
    · have hex' : ∃ x ∈ l, x.url = u := by
        obtain ⟨x, hx, hxu⟩ := hex
        rcases List.mem_cons.mp hx with h | h
        · exact absurd (h ▸ hxu) hau
        · exact ⟨x, h, hxu⟩
      simp [List.filter_cons, hau, ih hl hex']

lemma insertPost_count (t : PostsTable) (r : PostDataWrapper)
    (hnd : t.rows.Pairwise (fun a b => a.url ≠ b.url)) :
    ((insertPost t r).rows.filter (fun row => row.url == r.url)).length = 1 := by
  by_cases h : t.rows.any (fun row => row.url == r.url) = true
  · have hex : ∃ x ∈ t.rows, x.url = r.url := by
      simpa using List.any_eq_true.mp h
    simpa [insertPost, h] using filter_url_length_one t.rows r.url hnd hex
  · have hnone : ∀ b ∈ t.rows, ¬(b.url == r.url) = true :=
      List.any_eq_false.mp (by simpa using h)
    have hnil : t.rows.filter (fun row => row.url == r.url) = [] :=
      List.filter_eq_nil_iff.mpr hnone
    simp [insertPost, h, List.filter_append, hnil]

lemma insertComment_idem (rows : List CommentDataWrapper) (c : CommentDataWrapper) :
    insertComment (insertComment rows c) c = insertComment rows c := by
  simp [insertComment, List.filter_append, List.filter_filter]

lemma insertComment_count (rows : List CommentDataWrapper) (c : CommentDataWrapper) :
    ((insertComment rows c).filter (fun row => row.id == c.id)).length = 1 := by
  simp [insertComment, List.filter_append, List.filter_filter]

/-- C7: re-inserting an already-present record is an idempotent no-op for
both tables: a second `append_results` of the same post (identified by
its UNIQUE `url`, the only key `append_results` writes) leaves the table
unchanged with exactly one row carrying that key, and a second
`append_comments` of the same comment (identified by its PRIMARY KEY
`id`) likewise leaves exactly one row with that id; neither insert
errors — INSERT OR IGNORE / INSERT OR REPLACE resolve the conflict, so
the model has no error outcome. -/
theorem c7_idempotent_insert (t : PostsTable) (r : PostDataWrapper)
    (rows : List CommentDataWrapper) (c : CommentDataWrapper)
    (hnd : t.rows.Pairwise (fun a b => a.url ≠ b.url)) :
    append_results t [r, r] = append_results t [r] ∧
    ((append_results t [r]).rows.filter (fun row => row.url == r.url)).length = 1 ∧
    append_comments rows [c, c] = append_comments rows [c] ∧
    ((append_comments rows [c]).filter (fun row => row.id == c.id)).length = 1 := by
  refine ⟨?_, ?_, ?_, ?_⟩
  · simpa [append_results] using insertPost_idem t r
  · simpa [append_results] using insertPost_count t r hnd
  · simpa [append_comments] using insertComment_idem rows c
  · simpa [append_comments] using insertComment_count rows c

/-- Sample post used by the C7 witness. -/
def samplePost : PostDataWrapper :=
  { id := 0, timestamp := 1704067200, formatted_date := "2024-01-01",
    title := "Looking for a CRM", url := "https://x", relevance := "hot",
    subreddit := "sales", permalink := "/r/sales/1" }

/-- Sample comment used by the C7 witness. -/
def sampleComment : CommentDataWrapper :=
  { id := "c1", post_id := "1", body := "try this", author := "u1",
    timestamp := 1704067300, formatted_date := "2024-01-01", score := 3,
    permalink := "/r/sales/1/c1", parent_id := "t3_1" }

/-- Sample posts-table state used by the C7 witness. -/
def sampleTable : PostsTable :=
  let existingRow : PostDataWrapper :=
    { id := 1, timestamp := 5, formatted_date := "1970-01-01",
      title := "other", url := "https://y", relevance := "hot",
      subreddit := "sales", permalink := "/r/sales/0" }
  { rows := [existingRow], nextRowId := 2 }

/-- Witness for C7 at a concrete store state and records. -/
theorem c7_idempotent_insert_witness :
    append_results sampleTable [samplePost, samplePost] = append_results sampleTable [samplePost] ∧
    ((append_comments [] [sampleComment]).filter (fun row => row.id == sampleComment.id)).length
      = 1 := by
  have h := c7_idempotent_insert sampleTable samplePost [] sampleComment
    (by simp [sampleTable])
  exact ⟨h.1, h.2.2.2⟩

/-- C10: `get_db_results` returns exactly the stored posts (a permutation
of the table rows), sorted by timestamp in descending order, and
`get_post_comments pid` returns exactly the stored comments whose
`post_id` equals `pid`, also sorted by timestamp in descending order. -/
theorem c10_queries_sorted (t : PostsTable) (rows : List CommentDataWrapper) (pid : String) :
    (get_db_results t).Perm t.rows ∧
    (get_db_results t).Pairwise (fun a b => b.timestamp ≤ a.timestamp) ∧
    (get_post_comments rows pid).Perm (rows.filter (fun c => c.post_id == pid)) ∧
    (get_post_comments rows pid).Pairwise (fun a b => b.timestamp ≤ a.timestamp) ∧
    (∀ c ∈ get_post_comments rows pid, c.post_id = pid) := by
  have htrans : ∀ a b c : PostDataWrapper,
      decide (b.timestamp ≤ a.timestamp) = true → decide (c.timestamp ≤ b.timestamp) = true →
      decide (c.timestamp ≤ a.timestamp) = true := by
    intro a b c hab hbc
    simp only [decide_eq_true_eq] at *
    omega
  have htotal : ∀ a b : PostDataWrapper,
      (decide (b.timestamp ≤ a.timestamp) || decide (a.timestamp ≤ b.timestamp)) = true := by
    intro a b
    simp only [Bool.or_eq_true, decide_eq_true_eq]
    omega
  have htransC : ∀ a b c : CommentDataWrapper,
      decide (b.timestamp ≤ a.timestamp) = true → decide (c.timestamp ≤ b.timestamp) = true →
      decide (c.timestamp ≤ a.timestamp) = true := by
    intro a b c hab hbc
    simp only [decide_eq_true_eq] at *
    omega
  have htotalC : ∀ a b : CommentDataWrapper,
      (decide (b.timestamp ≤ a.timestamp) || decide (a.timestamp ≤ b.timestamp)) = true := by
    intro a b
    simp only [Bool.or_eq_true, decide_eq_true_eq]
    omega
  refine ⟨List.mergeSort_perm t.rows _, ?_, List.mergeSort_perm _ _, ?_, ?_⟩
  · exact (List.sorted_mergeSort htrans htotal t.rows).imp (fun h => by simpa using h)
  · exact (List.sorted_mergeSort htransC htotalC _).imp (fun h => by simpa using h)
  · intro c hc
    have hmem : c ∈ rows.filter (fun x => x.post_id == pid) :=
      (List.mergeSort_perm _ _).mem_iff.mp hc
    have := (List.mem_filter.mp hmem).2
    simpa using this

/-- `GeminiError` of `src/ai/gemini.rs` (lines 16-22). -/
inductive GeminiError
  | DatabaseError (msg : String)
  | ConfigError (msg : String)
  | GeminiApiError (msg : String)
  | JsonParsingError (msg : String)
  deriving DecidableEq

/-- Outcome of one provider call (`client.generate_content()...execute()`):
either a transport/provider failure with its display message, or a raw
text response. -/
inductive ProviderOutcome
  | failure (msg : String)
  | success (text : String)
  deriving DecidableEq

/-- Observable external actions of one extraction run, in order: the
provider call of each attempt (with the system instruction it was given)
and, in the leads variant, each invocation of the export sink (with the
normalized payload handed to it). -/
inductive Event
  | providerCall (attempt : Nat) (systemPrompt : String)
  | exportCall (attempt : Nat) (payload : String)
  deriving DecidableEq

/-- Number of provider calls recorded in an event list. -/
def countProviderCalls (events : List Event) : Nat :=
  events.countP fun e =>
    match e with
    | Event.providerCall _ _ => true
    | Event.exportCall _ _ => false

/-- `ApiKeys` of `src/settings/api_keys.rs` (lines 5-24). -/
structure ApiKeys where
  REDDIT_API_ID : String
  REDDIT_API_SECRET : String
  GEMINI_API_KEY : String
  SUBREDDIT : String
  RELEVANCE : String
  LEAD_KEYWORDS : List String
  BRANDED_KEYWORDS : List String
  SENTIMENT : List String
  MATCH : String
  deriving DecidableEq

/-- `AppConfig` of `src/settings/api_keys.rs` (lines 36-39). -/
structure AppConfig where
  api_keys : ApiKeys
  deriving DecidableEq

/-- System instruction of `ask_gemini` (`src/ai/gemini.rs` lines 77-87):
the code comment announces a stricter prompt on later attempts, but both
branches of `if attempts > 1` hold the identical literal. -/
def askSystemPrompt (json_reddits : String) (attempts : Nat) : String :=
  if attempts > 1 then
    "Given the following data: " ++ json_reddits ++
      ", output the information in the best way possible to answer the questions. Be as thorough as possible and provide URLs when needed."
  else
    "Given the following data: " ++ json_reddits ++
      ", output the information in the best way possible to answer the questions. Be as thorough as possible and provide URLs when needed."

/-- Attempt-2 system instruction of `gemini_generate_leads`
(`src/ai/gemini.rs` lines 272-292), with `json_reddits` substituted for
the format placeholder. -/
def leadsPromptAttempt2 (json_reddits : String) : String :=
  "You are a lead generation AI. Analyze the following data strictly: " ++ json_reddits ++
    "\n\n        REQUIREMENTS:\n        1. Return ONLY a valid JSON array of objects\n        2. Each object MUST have these fields:\n           - formatted_date: post date (YYYY-MM-DD)\n           - title: exact post title\n           - url: full post URL\n           - relevance: HIGH, MEDIUM, or LOW based on lead quality\n           - subreddit: subreddit name\n           - sentiment: detected sentiment (positive, negative, neutral)\n           - engagement_score: HIGH/MEDIUM/LOW\n\n        Follow these rules:\n        - Use proper JSON format with double quotes\n        - No text outside the JSON\n        - No markdown code blocks\n        - ONLY include posts matching the query criteria"

/-- Attempt-1 system instruction of `gemini_generate_leads`
(`src/ai/gemini.rs` lines 294-317), with the serialized combined
posts-and-comments payload substituted for the format placeholder. -/
def leadsPromptAttempt1 (combined_json : String) : String :=
  "You are a lead generation AI analyzing posts and comments. Analyze this data: " ++
    combined_json ++
    "\n\n                STRICT OUTPUT REQUIREMENTS:\n                1. Return ONLY a valid JSON array of objects\n                2. Each object MUST have:\n                   - formatted_date: post date (YYYY-MM-DD)\n                   - title: exact post title\n                   - url: full post URL\n                   - relevance: HIGH/MEDIUM/LOW for lead quality\n                   - subreddit: subreddit name\n                   - sentiment: detected sentiment\n                   - top_comments: array of up to 3 most relevant comments\n                   - comment_sentiment: overall comment sentiment\n                   - engagement_score: HIGH/MEDIUM/LOW based on interaction\n\n                NO text outside JSON. NO markdown blocks."

/-- Environment of one `ask_gemini` call: the outcome of every external
interaction the function makes, in program order.  `parse` models
`serde_json::from_str` (an external library), returning either the parsed
value of type `J` or the parser's error message. -/
structure AskEnv (J : Type) where
  dbConnect : Except String Unit
  dbResults : Except String (List PostDataWrapper)
  serializePosts : List PostDataWrapper → Except String String
  readConfig : Except String AppConfig
  provider : Nat → ProviderOutcome
  parse : String → Except String J

/-- The retry loop of `ask_gemini` (`src/ai/gemini.rs` lines 73-173).
The Rust `while attempts < max_attempts` loop is modelled by structural
recursion on `remaining = max_attempts - attempts`; `attempts` is the
counter already incremented this iteration.  The spinner thread (started
and joined around each provider call) has no observable effect and is
not modelled. -/
def askLoop {J : Type} (env : AskEnv J) (json_reddits : String) (attempts remaining : Nat)
    (lastError : Option GeminiError) (events : List Event) :
    List Event × Except GeminiError J :=
  match remaining with
  | 0 =>
    (events, Except.error (lastError.getD
      (GeminiError.GeminiApiError "Unknown error after multiple attempts")))
  | remaining' + 1 =>
    let a := attempts + 1
    let events' := events ++ [Event.providerCall a (askSystemPrompt json_reddits a)]
    match env.provider a with
    | ProviderOutcome.failure e =>
      askLoop env json_reddits a remaining'
        (some (GeminiError.GeminiApiError ("Failed to generate content: " ++ e))) events'
    | ProviderOutcome.success text =>
      let json_str := stripFencesStr text
      match env.parse json_str with
      | Except.ok data => (events', Except.ok data)
      | Except.error e =>
        askLoop env json_reddits a remaining'
          (some (GeminiError.JsonParsingError
            ("Failed to parse JSON from API response: " ++ e ++ ". Response was: " ++ text)))
          events'

/-- `ask_gemini` (`src/ai/gemini.rs` lines 46-178): connect to the store,
read all posts, serialize them, read the configuration, then run the
two-attempt retry loop.  The result is the list of observable events
together with the returned value or classified error. -/
def ask_gemini {J : Type} (env : AskEnv J) : List Event × Except GeminiError J :=
  match env.dbConnect with
  | Except.error e =>
    ([], Except.error (GeminiError.DatabaseError ("Failed to connect to DB: " ++ e)))
  | Except.ok _ =>
    match env.dbResults with
    | Except.error e =>
      ([], Except.error (GeminiError.DatabaseError ("Failed to get DB results: " ++ e)))
    | Except.ok reddits =>
      match env.serializePosts reddits with
      | Except.error e =>
        ([], Except.error (GeminiError.DatabaseError
          ("Failed to serialize DB data to JSON: " ++ e)))
      | Except.ok json_reddits =>
        match env.readConfig with
        | Except.error e => ([], Except.error (GeminiError.ConfigError e))
        | Except.ok _ => askLoop env json_reddits 0 2 none []

/-- Result of one `gemini_generate_leads` call: success, a classified
error, or a process abort (Rust `panic!` raised by an `expect`). -/
inductive LeadsOutcome
  | ok
  | err (e : GeminiError)
  | panicked (msg : String)
  deriving DecidableEq

/-- Environment of one `gemini_generate_leads` call.  The function makes
two `DB::new` / `get_db_results` / `read_config` round trips; each call
site gets its own slot (suffixes A-F follow program order).
`serializeCombined` models `serde_json::to_string(&combined_data)`, used
with `unwrap_or_default`; `saveExcel` models the file-system part of
`export_gemini_to_excel` (worksheet writing and workbook save) on each
attempt. -/
structure LeadsEnv (J : Type) where
  readConfigA : Except String AppConfig
  dbConnectB : Except String Unit
  postsC : Except String (List PostDataWrapper)
  commentsFor : String → Except String (List CommentDataWrapper)
  dbConnectD : Except String Unit
  postsE : Except String (List PostDataWrapper)
  serializePosts : List PostDataWrapper → Except String String
  readConfigF : Except String AppConfig
  serializeCombined : List PostDataWrapper → List CommentDataWrapper → Option String
  provider : Nat → ProviderOutcome
  parse : String → Except String J
  saveExcel : Nat → Except String Unit

/-- The comment-gathering loop of `gemini_generate_leads`
(`src/ai/gemini.rs` lines 211-216): collect `get_post_comments` for every
post, silently skipping posts whose lookup errors (`if let Ok`). -/
def allCommentsOf {J : Type} (env : LeadsEnv J) (posts : List PostDataWrapper) :
    List CommentDataWrapper :=
  posts.foldl
    (fun acc p =>
      match env.commentsFor (toString p.id) with
      | Except.ok cs => acc ++ cs
      | Except.error _ => acc)
    []

/-- The retry loop of `gemini_generate_leads` (`src/ai/gemini.rs` lines
266-406).  After a successful provider call the normalized text is handed
to `export_gemini_to_excel` BEFORE the loop's own parse: the export first
parses the payload as a JSON array or single value
(`from_str::<Vec<Value>>(s).or_else(|_| from_str::<Value>(s).map(|v| vec![v]))`,
which succeeds exactly when `from_str::<Value>` does, hence is modelled by
the same `parse` function) and panics via `expect` when that fails; when
the export itself returns an error, the call site's
`.expect("Failed to export gemini leads to excel")` panics.  Only when
the export returns Ok does control reach the loop's parse-and-retry
`match` (lines 395-405). -/
def leadsLoop {J : Type} (env : LeadsEnv J) (json_reddits combined_json : String)
    (attempts remaining : Nat) (lastError : Option GeminiError) (events : List Event) :
    List Event × LeadsOutcome :=
  match remaining with
  | 0 =>
    (events, LeadsOutcome.err (lastError.getD
      (GeminiError.GeminiApiError "Unknown error after multiple attempts")))
  | remaining' + 1 =>
    let a := attempts + 1
    let prompt := if a > 1 then leadsPromptAttempt2 json_reddits
      else leadsPromptAttempt1 combined_json
    let events1 := events ++ [Event.providerCall a prompt]
    match env.provider a with
    | ProviderOutcome.failure e =>
      leadsLoop env json_reddits combined_json a remaining'
        (some (GeminiError.GeminiApiError ("Failed to generate content: " ++ e))) events1
    | ProviderOutcome.success text =>
      let json_str := stripFencesStr text
      let events2 := events1 ++ [Event.exportCall a json_str]
      if (env.parse json_str).isOk then
        match env.saveExcel a with
        | Except.error _ => (events2, LeadsOutcome.panicked "Failed to export gemini leads to excel")
        | Except.ok _ =>
          match env.parse json_str with
          | Except.ok _ => (events2, LeadsOutcome.ok)
          | Except.error e =>
            leadsLoop env json_reddits combined_json a remaining'
              (some (GeminiError.JsonParsingError
                ("Failed to parse JSON from API response: " ++ e ++ ". Response was: " ++ text)))
              events2
      else
        (events2, LeadsOutcome.panicked "Failed to parse JSON as an array or a single object")

/-- `gemini_generate_leads` (`src/ai/gemini.rs` lines 181-411): read the
configuration and reject empty lead-keyword lists, read posts and their
comments, re-read posts, serialize, re-read the configuration, then run
the two-attempt retry loop.  The keyword / sentiment / match-operator
strings and the user question built from them (lines 193-238) are pure
string formatting fed to the provider and do not influence any modelled
observable, so they are not tracked. -/
def gemini_generate_leads {J : Type} (env : LeadsEnv J) : List Event × LeadsOutcome :=
  match env.readConfigA with
  | Except.error e => ([], LeadsOutcome.err (GeminiError.ConfigError e))
  | Except.ok settings =>
    if settings.api_keys.LEAD_KEYWORDS.isEmpty then
      ([], LeadsOutcome.err (GeminiError.ConfigError
        "No lead keywords found in configuration file. Add default Keywords to match with reddit data and export leads"))
    else
      match env.dbConnectB with
      | Except.error e =>
        ([], LeadsOutcome.err (GeminiError.DatabaseError ("Failed to connect to DB: " ++ e)))
      | Except.ok _ =>
        match env.postsC with
        | Except.error e =>
          ([], LeadsOutcome.err (GeminiError.DatabaseError ("Failed to get posts: " ++ e)))
        | Except.ok posts =>
          let all_comments := allCommentsOf env posts
          match env.dbConnectD with
          | Except.error e =>
            ([], LeadsOutcome.err (GeminiError.DatabaseError ("Failed to connect to DB: " ++ e)))
          | Except.ok _ =>
            match env.postsE with
            | Except.error e =>
              ([], LeadsOutcome.err (GeminiError.DatabaseError ("Failed to get DB results: " ++ e)))
            | Except.ok reddits =>
              match env.serializePosts reddits with
              | Except.error e =>
                ([], LeadsOutcome.err (GeminiError.DatabaseError
                  ("Failed to serialize DB data to JSON: " ++ e)))
              | Except.ok json_reddits =>
                match env.readConfigF with
                | Except.error e => ([], LeadsOutcome.err (GeminiError.ConfigError e))
                | Except.ok _ =>
                  leadsLoop env json_reddits
                    ((env.serializeCombined reddits all_comments).getD "") 0 2 none []

/-- C3: in `gemini_generate_leads` the attempt-2 instruction does differ
from the attempt-1 instruction, but in `ask_gemini` the two branches of
`if attempts > 1` contain the identical string literal, so the attempt-1
and attempt-2 instructions are equal for every records snapshot — the
claim (and the code's own comment announcing a stricter prompt on
subsequent attempts) fails for the `ask_gemini` variant. -/
theorem c3_ask_prompt_never_escalates :
    (∀ (json_reddits : String) (a b : Nat),
      askSystemPrompt json_reddits a = askSystemPrompt json_reddits b) ∧
    leadsPromptAttempt2 "[]" ≠ leadsPromptAttempt1 "[]" := by
  constructor
  · intro json_reddits a b
    by_cases ha : a > 1 <;> by_cases hb : b > 1 <;>
      simp [askSystemPrompt, ha, hb]
  · decide

/-- Executable parser for decimal natural-number literals, a fragment of
JSON; used to instantiate the opaque `parse` parameter on concrete
inputs. -/
def parseDecimal (s : List Char) : Option Nat :=
  if s ≠ [] ∧ s.all (fun c => 48 ≤ c.toNat && c.toNat ≤ 57) then
    some (s.foldl (fun n c => n * 10 + (c.toNat - 48)) 0)
  else none

/-- Concrete stand-in for `serde_json::from_str`: accepts exactly the
decimal integer literals (valid JSON values) and rejects everything else
with serde's "expected value" message. -/
def intParse (s : String) : Except String Int :=
  match parseDecimal s.data with
  | some n => Except.ok (Int.ofNat n)
  | none => Except.error "expected value"

lemma askLoop_zero {J : Type} (env : AskEnv J) (json_reddits : String) (attempts : Nat)
    (lastError : Option GeminiError) (events : List Event) :
    askLoop env json_reddits attempts 0 lastError events =
      (events, Except.error (lastError.getD
        (GeminiError.GeminiApiError "Unknown error after multiple attempts"))) := rfl

lemma askLoop_succ {J : Type} (env : AskEnv J) (json_reddits : String) (attempts r : Nat)
    (lastError : Option GeminiError) (events : List Event) :
    askLoop env json_reddits attempts (r + 1) lastError events =
      (let a := attempts + 1
       let events' := events ++ [Event.providerCall a (askSystemPrompt json_reddits a)]
       match env.provider a with
       | ProviderOutcome.failure e =>
         askLoop env json_reddits a r
           (some (GeminiError.GeminiApiError ("Failed to generate content: " ++ e))) events'
       | ProviderOutcome.success text =>
         let json_str := stripFencesStr text
         match env.parse json_str with
         | Except.ok data => (events', Except.ok data)
         | Except.error e =>
           askLoop env json_reddits a r
             (some (GeminiError.JsonParsingError
               ("Failed to parse JSON from API response: " ++ e ++ ". Response was: " ++ text)))
             events') := rfl

lemma ask_preloop {J : Type} (env : AskEnv J) (ps : List PostDataWrapper) (jr : String)
    (cfg : AppConfig) (hdb : env.dbConnect = Except.ok ())
    (hres : env.dbResults = Except.ok ps) (hser : env.serializePosts ps = Except.ok jr)
    (hcfg : env.readConfig = Except.ok cfg) :
    ask_gemini env = askLoop env jr 0 2 none [] := by
  simp only [ask_gemini, hdb, hres, hser, hcfg]

lemma leads_preloop {J : Type} (env : LeadsEnv J) (cfgA cfgF : AppConfig)
    (ps ps2 : List PostDataWrapper) (jr : String)
    (hA : env.readConfigA = Except.ok cfgA)
    (hkw : cfgA.api_keys.LEAD_KEYWORDS.isEmpty = false)
    (hB : env.dbConnectB = Except.ok ())
    (hC : env.postsC = Except.ok ps)
    (hD : env.dbConnectD = Except.ok ())
    (hE : env.postsE = Except.ok ps2)
    (hS : env.serializePosts ps2 = Except.ok jr)
    (hF : env.readConfigF = Except.ok cfgF) :
    gemini_generate_leads env =
      leadsLoop env jr ((env.serializeCombined ps2 (allCommentsOf env ps)).getD "")
        0 2 none [] := by
  simp only [gemini_generate_leads, hA, hkw, hB, hC, hD, hE, hS, hF,
    Bool.false_eq_true, if_false]

lemma askLoop_ok_exit {J : Type} (env : AskEnv J) (jr : String) :
    ∀ (remaining attempts : Nat) (lastError : Option GeminiError)
      (events evs : List Event) (w : J),
      askLoop env jr attempts remaining lastError events = (evs, Except.ok w) →
      ∃ a resp, env.provider a = ProviderOutcome.success resp ∧
        env.parse (stripFencesStr resp) = Except.ok w := by
  intro remaining
  induction remaining with
  | zero =>
    intro attempts lastError events evs w h
    rw [askLoop_zero] at h
    exact absurd (congrArg Prod.snd h) (by simp)
  | succ r ih =>
    intro attempts lastError events evs w h
    rw [askLoop_succ] at h
    simp only [] at h
    cases hp : env.provider (attempts + 1) with
    | failure m =>
      rw [hp] at h
      simp only [] at h
      exact ih _ _ _ _ _ h
    | success resp =>
      rw [hp] at h
      simp only [] at h
      cases hq : env.parse (stripFencesStr resp) with
      | ok d =>
        rw [hq] at h
        simp only [] at h
        have := congrArg Prod.snd h
        simp only at this
        exact ⟨attempts + 1, resp, hp, by rw [hq, Except.ok.injEq]; exact Except.ok.inj this⟩
      | error e =>
        rw [hq] at h
        simp only [] at h
        exact ih _ _ _ _ _ h

/-- C5: when the provider fails with a transport error on both attempts,
each variant of the extraction loop makes exactly `max_attempts = 2`
provider calls (no early abort) and then fails with the classified
provider error (`GeminiApiError`) carrying the last transport error
message. -/
theorem c5_provider_failures_exhaust {J : Type} (envA : AskEnv J) (envL : LeadsEnv J)
    (ps psL psL2 : List PostDataWrapper) (jr jrL cjL : String) (cfg cfgA cfgF : AppConfig)
    (m1 m2 n1 n2 : String)
    (hdb : envA.dbConnect = Except.ok ()) (hres : envA.dbResults = Except.ok ps)
    (hser : envA.serializePosts ps = Except.ok jr) (hcfg : envA.readConfig = Except.ok cfg)
    (hp1 : envA.provider 1 = ProviderOutcome.failure m1)
    (hp2 : envA.provider 2 = ProviderOutcome.failure m2)
    (hA : envL.readConfigA = Except.ok cfgA)
    (hkw : cfgA.api_keys.LEAD_KEYWORDS.isEmpty = false)
    (hB : envL.dbConnectB = Except.ok ()) (hC : envL.postsC = Except.ok psL)
    (hD : envL.dbConnectD = Except.ok ()) (hE : envL.postsE = Except.ok psL2)
    (hS : envL.serializePosts psL2 = Except.ok jrL)
    (hF : envL.readConfigF = Except.ok cfgF)
    (hcj : (envL.serializeCombined psL2 (allCommentsOf envL psL)).getD "" = cjL)
    (hq1 : envL.provider 1 = ProviderOutcome.failure n1)
    (hq2 : envL.provider 2 = ProviderOutcome.failure n2) :
    ask_gemini envA =
      ([Event.providerCall 1 (askSystemPrompt jr 1), Event.providerCall 2 (askSystemPrompt jr 2)],
        Except.error (GeminiError.GeminiApiError ("Failed to generate content: " ++ m2))) ∧
    countProviderCalls (ask_gemini envA).1 = 2 ∧
    gemini_generate_leads envL =
      ([Event.providerCall 1 (leadsPromptAttempt1 cjL),
        Event.providerCall 2 (leadsPromptAttempt2 jrL)],
        LeadsOutcome.err (GeminiError.GeminiApiError ("Failed to generate content: " ++ n2))) ∧
    countProviderCalls (gemini_generate_leads envL).1 = 2 := by
  have hask : ask_gemini envA =
      ([Event.providerCall 1 (askSystemPrompt jr 1), Event.providerCall 2 (askSystemPrompt jr 2)],
        Except.error (GeminiError.GeminiApiError ("Failed to generate content: " ++ m2))) := by
    rw [ask_preloop envA ps jr cfg hdb hres hser hcfg]
    simp only [askLoop, hp1, hp2]
    rfl
  have hlead0 := leads_preloop envL cfgA cfgF psL psL2 jrL hA hkw hB hC hD hE hS hF
  rw [hcj] at hlead0
  have hlead : gemini_generate_leads envL =
      ([Event.providerCall 1 (leadsPromptAttempt1 cjL),
        Event.providerCall 2 (leadsPromptAttempt2 jrL)],
        LeadsOutcome.err (GeminiError.GeminiApiError ("Failed to generate content: " ++ n2))) := by
    rw [hlead0]
    simp only [leadsLoop, hq1, hq2]
    rfl
  refine ⟨hask, ?_, hlead, ?_⟩
  · rw [hask]
    rfl
  · rw [hlead]
    rfl

/-- Environments used by the C5 witness: both variants see transport
failures on every attempt. -/
def sampleAppConfig : AppConfig :=
  let keys : ApiKeys :=
    { REDDIT_API_ID := "id", REDDIT_API_SECRET := "sec",
      GEMINI_API_KEY := "key", SUBREDDIT := "all", RELEVANCE := "hot",
      LEAD_KEYWORDS := ["crm"], BRANDED_KEYWORDS := [], SENTIMENT := ["neutral"],
      MATCH := "OR" }
  { api_keys := keys }

/-- Ask-variant environment for the C5 witness. -/
def askEnvC5 : AskEnv Int :=
  { dbConnect := Except.ok (), dbResults := Except.ok [],
    serializePosts := fun _ => Except.ok "[]",
    readConfig := Except.ok sampleAppConfig,
    provider := fun _ => ProviderOutcome.failure "connection reset",
    parse := intParse }

/-- Leads-variant environment for the C5 witness. -/
def leadsEnvC5 : LeadsEnv Int :=
  { readConfigA := Except.ok sampleAppConfig, dbConnectB := Except.ok (),
    postsC := Except.ok [], commentsFor := fun _ => Except.ok [],
    dbConnectD := Except.ok (), postsE := Except.ok [],
    serializePosts := fun _ => Except.ok "[]",
    readConfigF := Except.ok sampleAppConfig,
    serializeCombined := fun _ _ => some "[]",
    provider := fun _ => ProviderOutcome.failure "connection reset",
    parse := intParse, saveExcel := fun _ => Except.ok () }

/-- Witness for C5 at concrete environments. -/
theorem c5_provider_failures_exhaust_witness :
    ask_gemini askEnvC5 =
      ([Event.providerCall 1 (askSystemPrompt "[]" 1),
        Event.providerCall 2 (askSystemPrompt "[]" 2)],
        Except.error (GeminiError.GeminiApiError
          ("Failed to generate content: " ++ "connection reset"))) ∧
    countProviderCalls (gemini_generate_leads leadsEnvC5).1 = 2 := by
  have h := c5_provider_failures_exhaust askEnvC5 leadsEnvC5 [] [] [] "[]" "[]" "[]"
    sampleAppConfig sampleAppConfig sampleAppConfig
    "connection reset" "connection reset" "connection reset" "connection reset"
    rfl rfl rfl rfl rfl rfl rfl rfl rfl rfl rfl rfl rfl rfl rfl rfl rfl
  exact ⟨h.1, h.2.2.2⟩

/-- C6: when the provider returns valid unfenced JSON on attempt 1, the
`ask_gemini` loop returns that parsed value after exactly one provider
call (the normalizer leaves the unfenced text at its trim), and — for
every environment — a successful parse of a normalized response is the
only way the loop can return a value. -/
theorem c6_first_attempt_success {J : Type} (env : AskEnv J) (ps : List PostDataWrapper)
    (jr t : String) (cfg : AppConfig) (v : J)
    (hdb : env.dbConnect = Except.ok ()) (hres : env.dbResults = Except.ok ps)
    (hser : env.serializePosts ps = Except.ok jr) (hcfg : env.readConfig = Except.ok cfg)
    (hp1 : env.provider 1 = ProviderOutcome.success t)
    (hunfenced : leadsWith fence (rsTrim t.data) = false)
    (hparse : env.parse (stripFencesStr t) = Except.ok v) :
    ask_gemini env = ([Event.providerCall 1 (askSystemPrompt jr 1)], Except.ok v) ∧
    stripFencesStr t = String.mk (rsTrim t.data) ∧
    (∀ (env2 : AskEnv J) (evs : List Event) (w : J),
      ask_gemini env2 = (evs, Except.ok w) →
      ∃ a resp, env2.provider a = ProviderOutcome.success resp ∧
        env2.parse (stripFencesStr resp) = Except.ok w) := by
  refine ⟨?_, ?_, ?_⟩
  · rw [ask_preloop env ps jr cfg hdb hres hser hcfg]
    simp only [askLoop, hp1, hparse]
    rfl
  · have hj : leadsWith fenceJson (rsTrim t.data) = false := by
      cases hc : leadsWith fenceJson (rsTrim t.data) with
      | false => rfl
      | true => rw [fence_of_fenceJson _ hc] at hunfenced; cases hunfenced
    simp only [stripFencesStr, stripFences, hj, hunfenced, Bool.false_eq_true, if_false]
  · intro env2 evs w h
    cases hdb2 : env2.dbConnect with
    | error e =>
      simp only [ask_gemini, hdb2] at h
      exact absurd (congrArg Prod.snd h) (by simp)
    | ok u =>
      cases hres2 : env2.dbResults with
      | error e =>
        simp only [ask_gemini, hdb2, hres2] at h
        exact absurd (congrArg Prod.snd h) (by simp)
      | ok ps2 =>
        cases hser2 : env2.serializePosts ps2 with
        | error e =>
          simp only [ask_gemini, hdb2, hres2, hser2] at h
          exact absurd (congrArg Prod.snd h) (by simp)
        | ok jr2 =>
          cases hcfg2 : env2.readConfig with
          | error e =>
            simp only [ask_gemini, hdb2, hres2, hser2, hcfg2] at h
            exact absurd (congrArg Prod.snd h) (by simp)
          | ok cfg2 =>
            simp only [ask_gemini, hdb2, hres2, hser2, hcfg2] at h
            exact askLoop_ok_exit env2 jr2 2 0 none [] evs w h

/-- Environment for the C6 witness: the provider answers `"42"`, plain
unfenced JSON, on attempt 1. -/
def askEnvC6 : AskEnv Int :=
  { dbConnect := Except.ok (), dbResults := Except.ok [],
    serializePosts := fun _ => Except.ok "[]",
    readConfig := Except.ok sampleAppConfig,
    provider := fun _ => ProviderOutcome.success "42",
    parse := intParse }

/-- Witness for C6 at a concrete environment. -/
theorem c6_first_attempt_success_witness :
    ask_gemini askEnvC6 = ([Event.providerCall 1 (askSystemPrompt "[]" 1)], Except.ok 42) :=
  (c6_first_attempt_success askEnvC6 [] "[]" "42" sampleAppConfig 42
    rfl rfl rfl rfl rfl (by decide) rfl).1

/-- C9: a store-read failure, a configuration-read failure, or (in the
leads variant) an empty lead-keyword list aborts the extraction call
before the retry loop starts, with the corresponding classified
`DatabaseError` / `ConfigError`; the event list is empty, so zero
provider calls were made and no retry attempt was consumed. -/
theorem c9_preflight_aborts {J : Type} (envA : AskEnv J) (envL : LeadsEnv J) (m : String)
    (cfgA : AppConfig) :
    (envA.dbConnect = Except.error m →
      ask_gemini envA =
        ([], Except.error (GeminiError.DatabaseError ("Failed to connect to DB: " ++ m)))) ∧
    (envA.dbConnect = Except.ok () → envA.dbResults = Except.error m →
      ask_gemini envA =
        ([], Except.error (GeminiError.DatabaseError ("Failed to get DB results: " ++ m)))) ∧
    (∀ ps, envA.dbConnect = Except.ok () → envA.dbResults = Except.ok ps →
      envA.serializePosts ps = Except.error m →
      ask_gemini envA =
        ([], Except.error (GeminiError.DatabaseError
          ("Failed to serialize DB data to JSON: " ++ m)))) ∧
    (∀ ps jr, envA.dbConnect = Except.ok () → envA.dbResults = Except.ok ps →
      envA.serializePosts ps = Except.ok jr → envA.readConfig = Except.error m →
      ask_gemini envA = ([], Except.error (GeminiError.ConfigError m))) ∧
    (envL.readConfigA = Except.error m →
      gemini_generate_leads envL = ([], LeadsOutcome.err (GeminiError.ConfigError m))) ∧
    (envL.readConfigA = Except.ok cfgA → cfgA.api_keys.LEAD_KEYWORDS = [] →
      gemini_generate_leads envL =
        ([], LeadsOutcome.err (GeminiError.ConfigError
          "No lead keywords found in configuration file. Add default Keywords to match with reddit data and export leads"))) ∧
    (envL.readConfigA = Except.ok cfgA → cfgA.api_keys.LEAD_KEYWORDS.isEmpty = false →
      envL.dbConnectB = Except.ok () → envL.postsC = Except.error m →
      gemini_generate_leads envL =
        ([], LeadsOutcome.err (GeminiError.DatabaseError ("Failed to get posts: " ++ m)))) := by
  refine ⟨?_, ?_, ?_, ?_, ?_, ?_, ?_⟩
  · intro h
    simp only [ask_gemini, h]
  · intro h1 h2
    simp only [ask_gemini, h1, h2]
  · intro ps h1 h2 h3
    simp only [ask_gemini, h1, h2, h3]
  · intro ps jr h1 h2 h3 h4
    simp only [ask_gemini, h1, h2, h3, h4]
  · intro h
    simp only [gemini_generate_leads, h]
  · intro h1 h2
    simp only [gemini_generate_leads, h1, h2, List.isEmpty_nil, if_true]
  · intro h1 h2 h3 h4
    simp only [gemini_generate_leads, h1, h2, h3, h4, Bool.false_eq_true, if_false]

/-- Ask-variant environment for the C9 witness: the store connection
fails. -/
def askEnvC9 : AskEnv Int :=
  { dbConnect := Except.error "disk full", dbResults := Except.error "disk full",
    serializePosts := fun _ => Except.ok "[]",
    readConfig := Except.ok sampleAppConfig,
    provider := fun _ => ProviderOutcome.failure "unreachable",
    parse := intParse }

/-- Leads-variant environment for the C9 witness: the configuration read
fails. -/
def leadsEnvC9 : LeadsEnv Int :=
  { readConfigA := Except.error "missing settings.toml", dbConnectB := Except.ok (),
    postsC := Except.ok [], commentsFor := fun _ => Except.ok [],
    dbConnectD := Except.ok (), postsE := Except.ok [],
    serializePosts := fun _ => Except.ok "[]",
    readConfigF := Except.ok sampleAppConfig,
    serializeCombined := fun _ _ => some "[]",
    provider := fun _ => ProviderOutcome.failure "unreachable",
    parse := intParse, saveExcel := fun _ => Except.ok () }

/-- Witness for C9 at concrete environments. -/
theorem c9_preflight_aborts_witness :
    ask_gemini askEnvC9 =
      ([], Except.error (GeminiError.DatabaseError ("Failed to connect to DB: " ++ "disk full"))) ∧
    gemini_generate_leads leadsEnvC9 =
      ([], LeadsOutcome.err (GeminiError.ConfigError "missing settings.toml")) := by
  have h1 := c9_preflight_aborts askEnvC9 leadsEnvC9 "disk full" sampleAppConfig
  have h2 := c9_preflight_aborts askEnvC9 leadsEnvC9 "missing settings.toml" sampleAppConfig
  exact ⟨h1.1 rfl, h2.2.2.2.2.1 rfl⟩

/-- Ask-variant environment for C1: invalid JSON on attempt 1, valid
JSON on attempt 2. -/
def askEnvC1 : AskEnv Int :=
  { dbConnect := Except.ok (), dbResults := Except.ok [],
    serializePosts := fun _ => Except.ok "[]",
    readConfig := Except.ok sampleAppConfig,
    provider := fun a =>
      if a = 1 then ProviderOutcome.success "not json" else ProviderOutcome.success "42",
    parse := intParse }

/-- Leads-variant environment for C1: the same provider behaviour
(invalid JSON on attempt 1, valid JSON on attempt 2), export file I/O
healthy. -/
def leadsEnvC1 : LeadsEnv Int :=
  { readConfigA := Except.ok sampleAppConfig, dbConnectB := Except.ok (),
    postsC := Except.ok [], commentsFor := fun _ => Except.ok [],
    dbConnectD := Except.ok (), postsE := Except.ok [],
    serializePosts := fun _ => Except.ok "[]",
    readConfigF := Except.ok sampleAppConfig,
    serializeCombined := fun _ _ => some "[]",
    provider := fun a =>
      if a = 1 then ProviderOutcome.success "not json" else ProviderOutcome.success "42",
    parse := intParse, saveExcel := fun _ => Except.ok () }

/-- C1, evaluated at the failing input: with invalid JSON on attempt 1
and valid JSON on attempt 2, `ask_gemini` behaves exactly as claimed
(returns the attempt-2 value after two provider calls), but
`gemini_generate_leads` hands the unparseable attempt-1 text to
`export_gemini_to_excel` before its own parse, whose `expect` panics —
the run aborts after a single provider call and the attempt-2 retry the
claim promises never happens. -/
theorem c1_second_attempt_value :
    ask_gemini askEnvC1 =
      ([Event.providerCall 1 (askSystemPrompt "[]" 1),
        Event.providerCall 2 (askSystemPrompt "[]" 2)], Except.ok 42) ∧
    countProviderCalls (ask_gemini askEnvC1).1 = 2 ∧
    gemini_generate_leads leadsEnvC1 =
      ([Event.providerCall 1 (leadsPromptAttempt1 "[]"), Event.exportCall 1 "not json"],
        LeadsOutcome.panicked "Failed to parse JSON as an array or a single object") ∧
    countProviderCalls (gemini_generate_leads leadsEnvC1).1 = 1 :=
  ⟨rfl, rfl, rfl, rfl⟩

/-- Ask-variant environment for C4: the provider call succeeds on both
attempts but never returns valid JSON. -/
def askEnvC4 : AskEnv Int :=
  { dbConnect := Except.ok (), dbResults := Except.ok [],
    serializePosts := fun _ => Except.ok "[]",
    readConfig := Except.ok sampleAppConfig,
    provider := fun _ => ProviderOutcome.success "bad response",
    parse := intParse }

/-- Leads-variant environment for C4: same provider behaviour. -/
def leadsEnvC4 : LeadsEnv Int :=
  { readConfigA := Except.ok sampleAppConfig, dbConnectB := Except.ok (),
    postsC := Except.ok [], commentsFor := fun _ => Except.ok [],
    dbConnectD := Except.ok (), postsE := Except.ok [],
    serializePosts := fun _ => Except.ok "[]",
    readConfigF := Except.ok sampleAppConfig,
    serializeCombined := fun _ _ => some "[]",
    provider := fun _ => ProviderOutcome.success "bad response",
    parse := intParse, saveExcel := fun _ => Except.ok () }

/-- C4, evaluated at the failing input: with every response failing JSON
parsing, `ask_gemini` behaves exactly as claimed — two provider calls,
then a `JsonParsingError` carrying both the last parser message and the
last raw response — but `gemini_generate_leads` panics inside the export
call on attempt 1, before its (now unreachable) parse-failure retry
branch, so the claimed two-call `JsonParsingError` exit never happens in
the leads variant. -/
theorem c4_exhausted_parse_failures :
    ask_gemini askEnvC4 =
      ([Event.providerCall 1 (askSystemPrompt "[]" 1),
        Event.providerCall 2 (askSystemPrompt "[]" 2)],
        Except.error (GeminiError.JsonParsingError
          ("Failed to parse JSON from API response: " ++ "expected value" ++
            ". Response was: " ++ "bad response"))) ∧
    countProviderCalls (ask_gemini askEnvC4).1 = 2 ∧
    gemini_generate_leads leadsEnvC4 =
      ([Event.providerCall 1 (leadsPromptAttempt1 "[]"), Event.exportCall 1 "bad response"],
        LeadsOutcome.panicked "Failed to parse JSON as an array or a single object") ∧
    countProviderCalls (gemini_generate_leads leadsEnvC4).1 = 1 :=
  ⟨rfl, rfl, rfl, rfl⟩

/-- Leads environment for the C8 counterexample: attempt 1 returns text
that is not JSON; the export file I/O itself is healthy. -/
def leadsEnvC8 : LeadsEnv Int :=
  { readConfigA := Except.ok sampleAppConfig, dbConnectB := Except.ok (),
    postsC := Except.ok [], commentsFor := fun _ => Except.ok [],
    dbConnectD := Except.ok (), postsE := Except.ok [],
    serializePosts := fun _ => Except.ok "[]",
    readConfigF := Except.ok sampleAppConfig,
    serializeCombined := fun _ _ => some "[]",
    provider := fun _ => ProviderOutcome.success "oops",
    parse := intParse, saveExcel := fun _ => Except.ok () }

/-- Leads environment for the C8 counterexample, second part: attempt 1
returns valid JSON but saving the workbook fails. -/
def leadsEnvC8b : LeadsEnv Int :=
  { readConfigA := Except.ok sampleAppConfig, dbConnectB := Except.ok (),
    postsC := Except.ok [], commentsFor := fun _ => Except.ok [],
    dbConnectD := Except.ok (), postsE := Except.ok [],
    serializePosts := fun _ => Except.ok "[]",
    readConfigF := Except.ok sampleAppConfig,
    serializeCombined := fun _ _ => some "[]",
    provider := fun _ => ProviderOutcome.success "7",
    parse := intParse, saveExcel := fun _ => Except.error "permission denied" }

/-- C8 counterexample: in the first run the export sink is invoked (event
list below) although the response never parses — the run ends in the
export's parse panic, so the export call was not gated on a successful
parse; in the second run the response would parse, but the export
failure turns the whole call into a panic instead of the extraction
result. -/
theorem c8_export_counterexample :
    gemini_generate_leads leadsEnvC8 =
      ([Event.providerCall 1 (leadsPromptAttempt1 "[]"), Event.exportCall 1 "oops"],
        LeadsOutcome.panicked "Failed to parse JSON as an array or a single object") ∧
    gemini_generate_leads leadsEnvC8b =
      ([Event.providerCall 1 (leadsPromptAttempt1 "[]"), Event.exportCall 1 "7"],
        LeadsOutcome.panicked "Failed to export gemini leads to excel") :=
  ⟨rfl, rfl⟩

/-- C8 amended: in every leads run that reaches the loop, the export
sink is invoked on each successful provider response — whether the first
success comes on attempt 1 or, after a transport failure, on attempt 2 —
immediately after normalization and before any parse validation; when
the payload is not valid JSON the run aborts with the export's parse
panic, when the export's file I/O fails the run aborts with the call
site's expect panic (discarding the parseable result), and only when
both succeed does the run return Ok.  Since a successful response either
returns or panics, and attempt 2 is reached only after an attempt-1
transport failure, the two families below cover every successful
provider response of every leads run. -/
theorem c8_export_before_parse {J : Type} (env : LeadsEnv J) (cfgA cfgF : AppConfig)
    (ps ps2 : List PostDataWrapper) (jr cj : String)
    (hA : env.readConfigA = Except.ok cfgA)
    (hkw : cfgA.api_keys.LEAD_KEYWORDS.isEmpty = false)
    (hB : env.dbConnectB = Except.ok ()) (hC : env.postsC = Except.ok ps)
    (hD : env.dbConnectD = Except.ok ()) (hE : env.postsE = Except.ok ps2)
    (hS : env.serializePosts ps2 = Except.ok jr)
    (hF : env.readConfigF = Except.ok cfgF)
    (hcj : (env.serializeCombined ps2 (allCommentsOf env ps)).getD "" = cj) :
    (∀ t, env.provider 1 = ProviderOutcome.success t →
      ((env.parse (stripFencesStr t)).isOk = false →
        gemini_generate_leads env =
          ([Event.providerCall 1 (leadsPromptAttempt1 cj), Event.exportCall 1 (stripFencesStr t)],
            LeadsOutcome.panicked "Failed to parse JSON as an array or a single object")) ∧
      (∀ em v, env.parse (stripFencesStr t) = Except.ok v → env.saveExcel 1 = Except.error em →
        gemini_generate_leads env =
          ([Event.providerCall 1 (leadsPromptAttempt1 cj), Event.exportCall 1 (stripFencesStr t)],
            LeadsOutcome.panicked "Failed to export gemini leads to excel")) ∧
      (∀ v, env.parse (stripFencesStr t) = Except.ok v → env.saveExcel 1 = Except.ok () →
        gemini_generate_leads env =
          ([Event.providerCall 1 (leadsPromptAttempt1 cj), Event.exportCall 1 (stripFencesStr t)],
            LeadsOutcome.ok))) ∧
    (∀ m t, env.provider 1 = ProviderOutcome.failure m →
      env.provider 2 = ProviderOutcome.success t →
      ((env.parse (stripFencesStr t)).isOk = false →
        gemini_generate_leads env =
          ([Event.providerCall 1 (leadsPromptAttempt1 cj),
            Event.providerCall 2 (leadsPromptAttempt2 jr), Event.exportCall 2 (stripFencesStr t)],
            LeadsOutcome.panicked "Failed to parse JSON as an array or a single object")) ∧
      (∀ em v, env.parse (stripFencesStr t) = Except.ok v → env.saveExcel 2 = Except.error em →
        gemini_generate_leads env =
          ([Event.providerCall 1 (leadsPromptAttempt1 cj),
            Event.providerCall 2 (leadsPromptAttempt2 jr), Event.exportCall 2 (stripFencesStr t)],
            LeadsOutcome.panicked "Failed to export gemini leads to excel")) ∧
      (∀ v, env.parse (stripFencesStr t) = Except.ok v → env.saveExcel 2 = Except.ok () →
        gemini_generate_leads env =
          ([Event.providerCall 1 (leadsPromptAttempt1 cj),
            Event.providerCall 2 (leadsPromptAttempt2 jr), Event.exportCall 2 (stripFencesStr t)],
            LeadsOutcome.ok))) := by
  have hpre := leads_preloop env cfgA cfgF ps ps2 jr hA hkw hB hC hD hE hS hF
  rw [hcj] at hpre
  constructor
  · intro t hp1
    refine ⟨?_, ?_, ?_⟩
    · intro hbad
      rw [hpre]
      simp only [leadsLoop, hp1, hbad, Bool.false_eq_true, if_false]
      rfl
    · intro em v hv hs
      rw [hpre]
      simp only [leadsLoop, hp1, hv, hs, Except.isOk, if_true]
      rfl
    · intro v hv hs
      rw [hpre]
      simp only [leadsLoop, hp1, hv, hs, Except.isOk, if_true]
      rfl
  · intro m t hp1 hp2
    refine ⟨?_, ?_, ?_⟩
    · intro hbad
      rw [hpre]
      simp only [leadsLoop, hp1, hp2, hbad, Bool.false_eq_true, if_false]
      rfl
    · intro em v hv hs
      rw [hpre]
      simp only [leadsLoop, hp1, hp2, hv, hs, Except.isOk, if_true]
      rfl
    · intro v hv hs
      rw [hpre]
      simp only [leadsLoop, hp1, hp2, hv, hs, Except.isOk, if_true]
      rfl

/-- Leads environment for the C8 witness, attempt-2 family: a transport
failure on attempt 1, then a successful but unparseable response on
attempt 2. -/
def leadsEnvC8c : LeadsEnv Int :=
  { readConfigA := Except.ok sampleAppConfig, dbConnectB := Except.ok (),
    postsC := Except.ok [], commentsFor := fun _ => Except.ok [],
    dbConnectD := Except.ok (), postsE := Except.ok [],
    serializePosts := fun _ => Except.ok "[]",
    readConfigF := Except.ok sampleAppConfig,
    serializeCombined := fun _ _ => some "[]",
    provider := fun a =>
      if a = 1 then ProviderOutcome.failure "timeout" else ProviderOutcome.success "oops",
    parse := intParse, saveExcel := fun _ => Except.ok () }

/-- Witness for C8 amended, exercising both families at concrete
environments: the export sink fires before parse validation on an
attempt-1 success and on an attempt-2 success after a transport
failure. -/
theorem c8_export_before_parse_witness :
    gemini_generate_leads leadsEnvC8 =
      ([Event.providerCall 1 (leadsPromptAttempt1 "[]"), Event.exportCall 1 "oops"],
        LeadsOutcome.panicked "Failed to parse JSON as an array or a single object") ∧
    gemini_generate_leads leadsEnvC8c =
      ([Event.providerCall 1 (leadsPromptAttempt1 "[]"),
        Event.providerCall 2 (leadsPromptAttempt2 "[]"), Event.exportCall 2 "oops"],
        LeadsOutcome.panicked "Failed to parse JSON as an array or a single object") := by
  have h1 := c8_export_before_parse leadsEnvC8 sampleAppConfig sampleAppConfig [] [] "[]" "[]"
    rfl rfl rfl rfl rfl rfl rfl rfl rfl
  have h2 := c8_export_before_parse leadsEnvC8c sampleAppConfig sampleAppConfig [] [] "[]" "[]"
    rfl rfl rfl rfl rfl rfl rfl rfl rfl
  exact ⟨(h1.1 "oops" rfl).1 rfl, (h2.2 "timeout" "oops" rfl rfl).1 rfl⟩

end Ruddit
